import Mathlib

/-!
Verification of the deployment orchestrator of the llm-deployer repository.

The development shallowly embeds the orchestrator code (`src/deployer.py` and
the entrypoint `main.py`) into Lean.  External effects (the gcloud CLI, the
terraform engine, the SSH transport, key generation) are modelled as oracle
inputs collected in the `Oracles` structure; the filesystem is a `World` value
threaded through the functions; observable side effects are recorded in a
`List Event` trace.  Python exceptions become `Except Err` results, with the
constructors of `Err` named after the error taxonomy of the specification
(each one stands for the concrete `RuntimeError` / `ValueError` / `KeyError` /
`TypeError` raised at the corresponding source line).
-/

/- ---------------------------------------------------------------------------
String machinery: Python `str.replace(old, new)` replaces every non-overlapping
occurrence of `old`, scanning left to right.  `replaceFuel` is the fuel-indexed
structural version (fuel at least the length of the string makes it total).
--------------------------------------------------------------------------- -/

/-- Fuel-indexed left-to-right non-overlapping replacement on character lists.
With fuel at least `s.length` this computes Python `s.replace(pat, rep)` for a
non-empty `pat`. -/
def replaceFuel (pat rep : List Char) : Nat → List Char → List Char
  | _, [] => []
  | 0, c :: rest => c :: rest
  | fuel+1, c :: rest =>
    if pat ≠ [] ∧ pat.isPrefixOf (c :: rest) = true then
      rep ++ replaceFuel pat rep fuel ((c :: rest).drop pat.length)
    else
      c :: replaceFuel pat rep fuel rest

/-- Python `s.replace(pat, rep)` on character lists (non-empty `pat`). -/
def listReplace (s pat rep : List Char) : List Char :=
  replaceFuel pat rep s.length s

/-- Python `s.replace(pat, rep)` on strings. -/
def pyReplace (s pat rep : String) : String :=
  String.mk (listReplace s.data pat.data rep.data)

/-- Boolean substring test: does `pat` occur contiguously inside the list? -/
def containsSub (pat : List Char) : List Char → Bool
  | [] => pat.isEmpty
  | c :: rest => pat.isPrefixOf (c :: rest) || containsSub pat rest

/-- Python `s.strip()` restricted to whitespace: drop leading and trailing
whitespace characters. -/
def pyStrip (s : String) : String :=
  String.mk (((s.data.dropWhile Char.isWhitespace).reverse.dropWhile
    Char.isWhitespace).reverse)

/- ---------------------------------------------------------------------------
Constants of src/deployer.py.
--------------------------------------------------------------------------- -/

/-- Constant `WORKDIR_NAME` of `deployer.py` (the fixed workspace directory). -/
def WORKDIR_NAME : String := "deploy_workdir"

/-- Constant `PRIVATE_KEY_FILENAME` of `deployer.py`. -/
def PRIVATE_KEY_FILENAME : String := "deploy_key.pem"

/-- Constant `PUBLIC_KEY_FILENAME` of `deployer.py`. -/
def PUBLIC_KEY_FILENAME : String := "deploy_key.pub"

/-- Constant `REMOTE_USERNAME` of `deployer.py`. -/
def REMOTE_USERNAME : String := "gcp-user"

/-- The placeholder tokens substituted in `execute_deployment` (line 131). -/
def PLACEHOLDERS : List String := ["YOUR_GCP_PROJECT_ID", "YOUR_GOOGLE_PROJECT_ID"]

/-- The substitution loop of `execute_deployment` (lines 131-133): each
placeholder is replaced, in list order, by the account identifier. -/
def substitutePlaceholders (project_id : String) (text : String) : String :=
  PLACEHOLDERS.foldl (fun acc ph => pyReplace acc ph project_id) text

/- ---------------------------------------------------------------------------
Data model.
--------------------------------------------------------------------------- -/

/-- Failure taxonomy.  Each constructor embeds a concrete Python exception:
`configurationError` the `RuntimeError`/`ValueError` of `_get_gcp_project_id`;
`commandError` the `RuntimeError` of `_run_command` (carrying the exit code of
its message); `unreachableHostError` the `RuntimeError` raised by the for-else
of the connection loop; `remoteScriptError` the remote-failure path of
`_run_remote_script` (the exit status carried in the `RuntimeError` message
together with the stderr tail printed immediately before raising);
`missingOutputError` the `KeyError` on a missing terraform output key;
`typeError` a Python `TypeError` from a call whose positional argument count
does not match the callee parameter count; `indexError` the `IndexError` of
`list(d.values())[0]` on an empty dict; `fileNotFoundError` an `open` on a
missing path; `stageFailure` any exception escaping the three LLM stages of
`main.py` (external collaborators, not modelled further). -/
inductive Err where
  | configurationError (msg : String)
  | commandError (returncode : Int)
  | unreachableHostError
  | remoteScriptError (exitStatus : Int) (stderrTail : String)
  | missingOutputError (key : String)
  | typeError
  | indexError
  | fileNotFoundError (path : String)
  | stageFailure (msg : String)
deriving DecidableEq

/-- Observable side effects of a run, in program order. -/
inductive Event where
  | runCmd (command : List String) (workingDir : String)
  | gcloudRead
  | writeFile (path : String)
  | generateKeyPair
  | sshAttempt (idx : Nat)
  | sleepSeconds (n : Nat)
  | sftpUpload (localPath remotePath : String)
  | remoteExec (command : String)
  | closeConnection
  | removeTree (path : String)
  | reportError (e : Err)
  | reportEndpoint (url : String)
  | message (text : String)
deriving DecidableEq

/-- Outcome of one spawned child process: the lines the parent reads from the
captured pipe (stdout, with stderr merged in when streaming), the separately
captured stderr text (only meaningful when not streaming), and the exit
status. -/
structure ProcResult where
  outLines : List String
  stderrText : String
  returncode : Int
deriving DecidableEq

/-- The material of one generated RSA key pair: the algorithm name and base64
body (`key.get_name()`, `key.get_base64()`) and the private key PEM text. -/
structure KeyPair where
  algName : String
  b64 : String
  privatePem : String
deriving DecidableEq

/-- Filesystem model: the set of existing directories and a path-to-contents
map for files (later writes shadow earlier entries; `List.lookup` reads). -/
structure World where
  dirs : List String
  files : List (String × String)
deriving DecidableEq

/-- Write (or overwrite) a file. -/
def fsWrite (path content : String) (w : World) : World :=
  World.mk w.dirs ((path, content) :: w.files)

/-- `os.makedirs(path, exist_ok=True)`. -/
def ensureDir (d : String) (w : World) : World :=
  if d ∈ w.dirs then w else World.mk (d :: w.dirs) w.files

/-- `shutil.rmtree(d)`: remove the directory and every file under it. -/
def removeTreeFS (d : String) (w : World) : World :=
  World.mk (w.dirs.filter (fun x => x != d))
    (w.files.filter (fun p => !((d ++ "/").isPrefixOf p.1)))

/-- The `terraform_code` member of the assets dict: either a plain text blob
or a keyed collection of named files (Python dict, entries in insertion
order, so `list(d.values())[0]` is the first entry of the list). -/
inductive TfPayload where
  | text (s : String)
  | keyed (entries : List (String × String))
deriving DecidableEq

/-- Deployment assets as consumed by `execute_deployment`: the
`terraform_code` and `deployment_script` keys (accessed unconditionally) and
the optional `analysis` sub-dict, of which only integer values such as
`exposed_port` are relevant (`none` models a missing key). -/
structure Assets where
  terraform_code : TfPayload
  deployment_script : String
  analysis : Option (List (String × Nat))
deriving DecidableEq

/-- Oracles for every external interaction of one run: the (stripped) stdout
of `gcloud config get-value project` (`none` when the CLI is absent or
fails), the freshly generated key material, the process results of the
terraform init / apply / `output -json` invocations, the parsed structured
output map (`json.loads` of the output stdout, flattened to the `value`
field of each wrapper object), the SSH connection outcome per attempt index,
the remote script's streamed stdout lines, exit status and captured stderr,
and the process results of the init / destroy invocations of
`destroy_resources`. -/
structure Oracles where
  gcloudProject : Option String
  newKey : KeyPair
  tfInit : ProcResult
  tfApply : ProcResult
  tfOutput : ProcResult
  tfOutputsParsed : List (String × String)
  connectOk : Nat → Bool
  remoteStdoutLines : List String
  remoteExitStatus : Int
  remoteStderr : String
  tfInitDestroy : ProcResult
  tfDestroy : ProcResult

/- ---------------------------------------------------------------------------
Operations of src/deployer.py.
--------------------------------------------------------------------------- -/

/-- Embeds `_run_command` (deployer.py lines 83-107): spawn the command in the
working directory, read the captured pipe, wait; a non-zero exit status
raises `RuntimeError` carrying the exit code, otherwise all captured output
is returned (the streamed accumulation when streaming, `communicate()[0]`
otherwise; both are the full pipe contents `outLines`). -/
def _run_command (command : List String) (working_dir : String)
    (stream_output : Bool) (p : ProcResult) : Except Err String × List Event :=
  ((if p.returncode ≠ 0 then Except.error (Err.commandError p.returncode)
    else Except.ok (String.join p.outLines)),
   [Event.runCmd command working_dir])

/-- Embeds `_get_gcp_project_id` (deployer.py lines 109-119): `none` models a
missing or failing gcloud CLI (`RuntimeError`), an empty stripped stdout
raises `ValueError`, otherwise the project id is returned. -/
def _get_gcp_project_id (gcloudProject : Option String) :
    Except Err String × List Event :=
  match gcloudProject with
  | none =>
      (Except.error (Err.configurationError
        "Failed to get GCP project ID. Is gcloud configured correctly?"),
       [Event.gcloudRead])
  | some s =>
      if s = "" then
        (Except.error (Err.configurationError "No GCP project is configured."),
         [Event.gcloudRead])
      else (Except.ok s, [Event.gcloudRead])

/-- Embeds `_generate_ssh_key` (deployer.py lines 15-30): if no private key
file exists in the working directory, generate a pair, write the private key
and the public key (in `<algorithm> <base64>` metadata format); always return
the two paths. -/
def _generate_ssh_key (workdir_path : String) (key : KeyPair) (w : World) :
    (String × String) × World × List Event :=
  let private_key_path := workdir_path ++ "/" ++ PRIVATE_KEY_FILENAME
  let public_key_path := workdir_path ++ "/" ++ PUBLIC_KEY_FILENAME
  if (w.files.lookup private_key_path).isSome then
    ((private_key_path, public_key_path), w, [])
  else
    ((private_key_path, public_key_path),
     fsWrite public_key_path (key.algName ++ " " ++ key.b64)
       (fsWrite private_key_path key.privatePem w),
     [Event.generateKeyPair])

/-- Embeds the connection retry loop of `_run_remote_script` (deployer.py
lines 39-49), generalized over the starting attempt index and the remaining
attempt budget: try to connect; on success stop, on failure sleep 15 seconds
and retry; an exhausted budget raises the for-else `RuntimeError`. -/
def connectLoopFrom (connectOk : Nat → Bool) : Nat → Nat → Except Err Nat × List Event
  | _, 0 => (Except.error Err.unreachableHostError, [])
  | i, remaining+1 =>
    if connectOk i then (Except.ok i, [Event.sshAttempt i])
    else
      let r := connectLoopFrom connectOk (i+1) remaining
      (r.1, Event.sshAttempt i :: Event.sleepSeconds 15 :: r.2)

/-- The connection loop as written: `for i in range(10)`. -/
def connectLoop (connectOk : Nat → Bool) : Except Err Nat × List Event :=
  connectLoopFrom connectOk 0 10

/-- `os.path.basename` for slash-separated paths. -/
def pathBasename (s : String) : String :=
  (s.splitOn "/").getLastD s

/-- Embeds `_run_remote_script` (deployer.py lines 32-80): connect with
bounded retries; on success upload the script to `/tmp/<basename>`, execute
it with `sudo`, stream its stdout lines, and decide the outcome from the
remote exit status (non-zero prints the stderr tail and raises); the
connection is closed in the `finally` block of the try that starts after a
successful connection (a connection failure raises before that try). -/
def _run_remote_script (hostname username private_key_path local_script_path : String)
    (connectOk : Nat → Bool) (outLines : List String) (exitStatus : Int)
    (stderrText : String) : Except Err Unit × List Event :=
  match connectLoop connectOk with
  | (Except.error e, evs) => (Except.error e, evs)
  | (Except.ok _, evs) =>
    let remote_script_path := "/tmp/" ++ pathBasename local_script_path
    let execEvs :=
      [Event.sftpUpload local_script_path remote_script_path,
       Event.remoteExec ("sudo " ++ remote_script_path)]
      ++ outLines.map Event.message
    if exitStatus ≠ 0 then
      (Except.error (Err.remoteScriptError exitStatus stderrText),
       evs ++ execEvs ++ [Event.closeConnection])
    else
      (Except.ok (), evs ++ execEvs ++ [Event.closeConnection])

/-- Embeds lines 126-128 of `execute_deployment`: a dict payload is collapsed
to its first value by iteration order (`list(d.values())[0]`); an empty dict
raises `IndexError`. -/
def extractTerraformContent : TfPayload → Except Err String
  | TfPayload.text s => Except.ok s
  | TfPayload.keyed [] => Except.error Err.indexError
  | TfPayload.keyed ((_, v) :: _) => Except.ok v

/-- Embeds the port extraction of `execute_deployment` (lines 164-167):
`assets['analysis']['exposed_port']` with any `KeyError` defaulting to 80. -/
def resolvePort (assets : Assets) : Nat :=
  match assets.analysis with
  | none => 80
  | some a =>
    match a.lookup "exposed_port" with
    | none => 80
    | some p => p

/-- Embeds `execute_deployment` (deployer.py lines 121-168), step for step:
make the fixed workspace directory (`exist_ok=True`); collapse the payload;
read the account id; substitute placeholders; write `main.tf` and
`deploy.sh`; ensure the key pair and read back the public key (stripped);
run `terraform init`, `terraform apply` (public key passed as a `-var`,
`-auto-approve` appended when requested), `terraform output -json`; read the
`nat_ip` output value; run the remote bootstrap; report the final endpoint
`http://<ip>:<port>`.  Any failure aborts the remaining steps.  Note that no
step removes the workspace directory. -/
def execute_deployment (assets : Assets) (auto_approve : Bool) (ext : Oracles)
    (w0 : World) : Except Err String × World × List Event :=
  let workdir_path := WORKDIR_NAME
  let w1 := ensureDir workdir_path w0
  match extractTerraformContent assets.terraform_code with
  | Except.error e => (Except.error e, w1, [])
  | Except.ok rawTf =>
    match _get_gcp_project_id ext.gcloudProject with
    | (Except.error e, evsG) => (Except.error e, w1, evsG)
    | (Except.ok project_id, evsG) =>
      let terraform_content := substitutePlaceholders project_id rawTf
      let tf_file_path := workdir_path ++ "/" ++ "main.tf"
      let script_file_path := workdir_path ++ "/" ++ "deploy.sh"
      let w2 := fsWrite script_file_path assets.deployment_script
        (fsWrite tf_file_path terraform_content w1)
      let evsW := evsG ++ [Event.writeFile tf_file_path, Event.writeFile script_file_path]
      match _generate_ssh_key workdir_path ext.newKey w2 with
      | ((private_key_path, public_key_path), w3, evsK) =>
        match w3.files.lookup public_key_path with
        | none => (Except.error (Err.fileNotFoundError public_key_path), w3, evsW ++ evsK)
        | some pubRaw =>
          let public_key_content := pyStrip pubRaw
          match _run_command ["terraform", "init", "-input=false"] workdir_path true ext.tfInit with
          | (Except.error e, evs) => (Except.error e, w3, evsW ++ evsK ++ evs)
          | (Except.ok _, evsI) =>
            let apply_command :=
              ["terraform", "apply", "-var=ssh_public_key=" ++ public_key_content]
              ++ (if auto_approve then ["-auto-approve"] else [])
            match _run_command apply_command workdir_path true ext.tfApply with
            | (Except.error e, evs) => (Except.error e, w3, evsW ++ evsK ++ evsI ++ evs)
            | (Except.ok _, evsA) =>
              match _run_command ["terraform", "output", "-json"] workdir_path false ext.tfOutput with
              | (Except.error e, evs) => (Except.error e, w3, evsW ++ evsK ++ evsI ++ evsA ++ evs)
              | (Except.ok _, evsO) =>
                match ext.tfOutputsParsed.lookup "nat_ip" with
                | none => (Except.error (Err.missingOutputError "nat_ip"),
                           w3, evsW ++ evsK ++ evsI ++ evsA ++ evsO)
                | some server_ip =>
                  match _run_remote_script server_ip REMOTE_USERNAME private_key_path
                      script_file_path ext.connectOk ext.remoteStdoutLines
                      ext.remoteExitStatus ext.remoteStderr with
                  | (Except.error e, evsR) =>
                      (Except.error e, w3, evsW ++ evsK ++ evsI ++ evsA ++ evsO ++ evsR)
                  | (Except.ok _, evsR) =>
                    let port := resolvePort assets
                    let url := "http://" ++ server_ip ++ ":" ++ toString port
                    (Except.ok url, w3,
                     evsW ++ evsK ++ evsI ++ evsA ++ evsO ++ evsR ++ [Event.reportEndpoint url])

/-- Embeds `destroy_resources` (deployer.py lines 171-189): when the fixed
workspace directory does not exist, print nothing-to-destroy and return;
otherwise run `terraform init` then `terraform destroy` (auto-approved when
requested) with any exception caught and reported — the function never
raises. -/
def destroy_resources (auto_approve : Bool) (ext : Oracles) (w : World) :
    World × List Event :=
  let workdir_path := WORKDIR_NAME
  if workdir_path ∈ w.dirs then
    match _run_command ["terraform", "init", "-input=false"] workdir_path true ext.tfInitDestroy with
    | (Except.error e, evs1) => (w, evs1 ++ [Event.reportError e])
    | (Except.ok _, evs1) =>
      let destroy_command := ["terraform", "destroy"]
        ++ (if auto_approve then ["-auto-approve"] else [])
      match _run_command destroy_command workdir_path true ext.tfDestroy with
      | (Except.error e, evs2) => (w, evs1 ++ evs2 ++ [Event.reportError e])
      | (Except.ok _, evs2) => (w, evs1 ++ evs2)
  else (w, [Event.message "Working directory not found. Nothing to destroy."])

/- ---------------------------------------------------------------------------
The entrypoint main.py.
--------------------------------------------------------------------------- -/

/-- Parameter list of `def execute_deployment(assets, auto_approve)`
(deployer.py line 121). -/
def execute_deployment_param_names : List String := ["assets", "auto_approve"]

/-- Positional argument list of the stage-4 call
`execute_deployment(deployment_assets, args.auto_approve, temp_code_dir)`
(main.py line 55). -/
def main_deploy_call_args : List String :=
  ["deployment_assets", "args.auto_approve", "temp_code_dir"]

/-- The parsed CLI arguments of main.py. -/
structure CliArgs where
  prompt : Option String
  repo : Option String
  destroy : Bool
  auto_approve : Bool

/-- Embeds `main` (main.py lines 12-63).  `temp_code_dir` is the fresh
directory returned by `tempfile.mkdtemp`; `stageAssets` is the combined
outcome of the three LLM stages (external collaborators: an error models any
exception they raise).  The destroy flag short-circuits to
`destroy_resources` and exits 0; missing prompt or repo is an argparse error
(exit 2) before the temporary directory is created.  The deploy path creates
the temporary directory, runs the stages, and performs the stage-4 call —
which passes three positional arguments to a two-parameter function, so
Python raises `TypeError` at the call site before the callee body runs.  The
`finally` block removes the temporary directory on every exit path of the
try. -/
def mainRun (args : CliArgs) (temp_code_dir : String)
    (stageAssets : Except String Assets) (ext : Oracles) (w0 : World) :
    Nat × World × List Event :=
  if args.destroy then
    let r := destroy_resources args.auto_approve ext w0
    (0, r.1, r.2)
  else if args.prompt.isNone || args.repo.isNone then
    (2, w0, [])
  else
    let w1 := World.mk (temp_code_dir :: w0.dirs) w0.files
    match stageAssets with
    | Except.error msg =>
        (1, removeTreeFS temp_code_dir w1,
         [Event.reportError (Err.stageFailure msg), Event.removeTree temp_code_dir])
    | Except.ok assets =>
      let call :=
        if main_deploy_call_args.length = execute_deployment_param_names.length then
          execute_deployment assets args.auto_approve ext w1
        else (Except.error Err.typeError, w1, ([] : List Event))
      match call with
      | (Except.ok _, w2, evs) =>
          (0, removeTreeFS temp_code_dir w2, evs ++ [Event.removeTree temp_code_dir])
      | (Except.error e, w2, evs) =>
          (1, removeTreeFS temp_code_dir w2,
           evs ++ [Event.reportError e, Event.removeTree temp_code_dir])

deriving instance DecidableEq for Except

/- ---------------------------------------------------------------------------
Derived definitions and concrete instances used by the theorems.
--------------------------------------------------------------------------- -/

/-- The event trace of `n` consecutive failed connection attempts starting at
attempt index `start`: each failure is followed by the fixed 15-second
sleep. -/
def retryTrace : Nat → Nat → List Event
  | _, 0 => []
  | start, n+1 => Event.sshAttempt start :: Event.sleepSeconds 15 :: retryTrace (start+1) n

/-- Number of connection attempts recorded in a trace. -/
def countAttempts (evs : List Event) : Nat :=
  (evs.filter (fun e => match e with | Event.sshAttempt _ => true | _ => false)).length

/-- Number of sleeps recorded in a trace. -/
def countSleeps (evs : List Event) : Nat :=
  (evs.filter (fun e => match e with | Event.sleepSeconds _ => true | _ => false)).length

/-- An initially empty filesystem. -/
def emptyWorld : World := World.mk [] []

/-- Oracles of a fully successful run: gcloud configured, terraform init /
apply / output all exit 0, the output map carries `nat_ip`, the first SSH
attempt connects, and the remote script exits 0. -/
def extOkRun : Oracles :=
  ⟨some "demo-project", ⟨"ssh-rsa", "AAAAB3", "PEMDATA"⟩,
   ⟨["Initialized."], "", 0⟩, ⟨["Apply complete."], "", 0⟩, ⟨["json"], "", 0⟩,
   [("nat_ip", "203.0.113.5")], fun _ => true, ["ok"], 0, "",
   ⟨[], "", 0⟩, ⟨[], "", 0⟩⟩

/-- Oracles identical to `extOkRun` except that the remote bootstrap script
exits with status 1 and stderr tail "bootstrap failed". -/
def extRemoteFail : Oracles :=
  ⟨some "demo-project", ⟨"ssh-rsa", "AAAAB3", "PEMDATA"⟩,
   ⟨["Initialized."], "", 0⟩, ⟨["Apply complete."], "", 0⟩, ⟨["json"], "", 0⟩,
   [("nat_ip", "203.0.113.5")], fun _ => true, ["ok"], 1, "bootstrap failed",
   ⟨[], "", 0⟩, ⟨[], "", 0⟩⟩

/-- Concrete assets: a plain-text declaration containing a placeholder, a
bootstrap script, and an analysis exposing port 5000. -/
def assetsPort5000 : Assets :=
  ⟨TfPayload.text "resource app YOUR_GCP_PROJECT_ID", "#!/bin/bash", some [("exposed_port", 5000)]⟩

/-- Concrete assets whose analysis is absent entirely. -/
def assetsNoAnalysis : Assets :=
  ⟨TfPayload.text "resource app", "#!/bin/bash", none⟩

/-- Concrete CLI arguments of a deploy-mode invocation with auto-approve. -/
def argsDeploy : CliArgs :=
  ⟨some "deploy my flask app on gcp", some "https://github.com/u/r", false, true⟩

/- ---------------------------------------------------------------------------
Lemmas about the replacement machinery.
--------------------------------------------------------------------------- -/

/-- Bridge between the boolean prefix test and the prefix relation. -/
theorem isPrefixOfChar {l1 l2 : List Char} : l1.isPrefixOf l2 = true ↔ l1 <+: l2 := by
  simp

/-- Convert a list prefix into a contiguous-occurrence witness. -/
theorem prefixToInf {l1 l2 : List Char} (h : l1 <+: l2) : l1 <:+: l2 := by
  obtain ⟨t, rfl⟩ := h
  exact ⟨[], t, rfl⟩

/-- Convert a list suffix into a contiguous-occurrence witness. -/
theorem suffixToInf {l1 l2 : List Char} (h : l1 <:+ l2) : l1 <:+: l2 := by
  obtain ⟨t, rfl⟩ := h
  exact ⟨t, [], by simp⟩

/-- The boolean substring test agrees with `List.IsInfix`. -/
theorem containsSubTrue (pat : List Char) :
    ∀ s, containsSub pat s = true ↔ pat <:+: s := by
  intro s
  induction s with
  | nil => simp [containsSub, List.isEmpty_iff]
  | cons c rest ih =>
    simp [containsSub, Bool.or_eq_true, ih, List.infix_cons_iff]

/-- A nonempty pattern cannot occur inside a list none of whose characters
belongs to the pattern. -/
theorem cleanNotInf (pat l : List Char) (hne : pat ≠ [])
    (hcl : ∀ c ∈ l, c ∉ pat) : ¬ pat <:+: l := by
  intro h
  cases pat with
  | nil => exact hne rfl
  | cons p ps =>
    exact hcl p (h.subset (List.mem_cons_self p ps)) (List.mem_cons_self p ps)

/-- An occurrence of a nonempty pattern inside `l1 ++ l2`, where no character
of `l1` belongs to the pattern, lies entirely inside `l2`. -/
theorem infAppendRight (pat l1 l2 : List Char) (hne : pat ≠ [])
    (hcl : ∀ c ∈ l1, c ∉ pat) (h : pat <:+: l1 ++ l2) : pat <:+: l2 := by
  induction l1 with
  | nil => simpa using h
  | cons a t ih =>
    rw [List.cons_append] at h
    rcases List.infix_cons_iff.mp h with hpre | hinf
    · cases pat with
      | nil => exact absurd rfl hne
      | cons p ps =>
        rcases List.cons_prefix_cons.mp hpre with ⟨hpa, _⟩
        subst hpa
        exact absurd (List.mem_cons_self p ps)
          (hcl p (List.mem_cons_self p t))
    · exact ih (fun c hc => hcl c (List.mem_cons_of_mem a hc)) hinf

/-- A prefix of the replacement result that shares no character with the
(nonempty) replacement text is already a prefix of the original list. -/
theorem prefixThroughReplace (pat rep : List Char) (hrep : rep ≠ []) :
    ∀ fuel s q, s.length ≤ fuel → (∀ c ∈ q, c ∉ rep) →
      q <+: replaceFuel pat rep fuel s → q <+: s := by
  intro fuel
  induction fuel with
  | zero =>
    intro s q hlen hq h
    have hs : s = [] := List.length_eq_zero.mp (Nat.le_zero.mp hlen)
    subst hs
    simpa [replaceFuel] using h
  | succ n ih =>
    intro s q hlen hq h
    cases s with
    | nil => simpa [replaceFuel] using h
    | cons c rest =>
      simp only [replaceFuel] at h
      by_cases hm : pat ≠ [] ∧ pat.isPrefixOf (c :: rest) = true
      · rw [if_pos hm] at h
        cases q with
        | nil => exact ⟨c :: rest, rfl⟩
        | cons x q2 =>
          cases rep with
          | nil => exact absurd rfl hrep
          | cons r rep2 =>
            rw [List.cons_append] at h
            rcases List.cons_prefix_cons.mp h with ⟨hxr, _⟩
            subst hxr
            exact absurd (List.mem_cons_self x rep2)
              (hq x (List.mem_cons_self x q2))
      · rw [if_neg hm] at h
        cases q with
        | nil => exact ⟨c :: rest, rfl⟩
        | cons x q2 =>
          rcases List.cons_prefix_cons.mp h with ⟨hxc, hq2⟩
          subst hxc
          have hrec := ih rest q2 (Nat.le_of_succ_le_succ (by simpa using hlen))
            (fun c hc => hq c (List.mem_cons_of_mem _ hc)) hq2
          exact List.cons_prefix_cons.mpr ⟨rfl, hrec⟩

/-- After replacing every occurrence of a nonempty pattern by a nonempty
replacement sharing no character with it, the pattern no longer occurs. -/
theorem replaceNoOccur (pat rep : List Char) (hpat : pat ≠ []) (hrep : rep ≠ [])
    (hdisj : ∀ c ∈ rep, c ∉ pat) :
    ∀ fuel s, s.length ≤ fuel → ¬ pat <:+: replaceFuel pat rep fuel s := by
  intro fuel
  induction fuel with
  | zero =>
    intro s hlen h
    have hs : s = [] := List.length_eq_zero.mp (Nat.le_zero.mp hlen)
    subst hs
    simp only [replaceFuel, List.infix_nil] at h
    exact hpat h
  | succ n ih =>
    intro s hlen h
    cases s with
    | nil =>
      simp only [replaceFuel, List.infix_nil] at h
      exact hpat h
    | cons c rest =>
      have hpatlen : 1 ≤ pat.length := by
        cases pat with
        | nil => exact absurd rfl hpat
        | cons p ps => simp
      simp only [replaceFuel] at h
      by_cases hm : pat ≠ [] ∧ pat.isPrefixOf (c :: rest) = true
      · rw [if_pos hm] at h
        have h2 := infAppendRight pat rep _ hpat hdisj h
        have hlen2 : ((c :: rest).drop pat.length).length ≤ n := by
          rw [List.length_drop]
          simp only [List.length_cons] at hlen ⊢
          omega
        exact ih _ hlen2 h2
      · rw [if_neg hm] at h
        rcases List.infix_cons_iff.mp h with hpre | hinf
        · cases pat with
          | nil => exact hpat rfl
          | cons p ps =>
            rcases List.cons_prefix_cons.mp hpre with ⟨hpc, hps⟩
            subst hpc
            have hq : ∀ x ∈ ps, x ∉ rep :=
              fun x hx hxr => hdisj x hxr (List.mem_cons_of_mem p hx)
            have hps2 : ps <+: rest :=
              prefixThroughReplace (p :: ps) rep hrep n rest ps
                (Nat.le_of_succ_le_succ (by simpa using hlen)) hq hps
            refine hm ⟨by simp, ?_⟩
            exact isPrefixOfChar.mpr (List.cons_prefix_cons.mpr ⟨rfl, hps2⟩)
        · exact ih rest (Nat.le_of_succ_le_succ (by simpa using hlen)) hinf

/-- Replacing a pattern by a nonempty replacement sharing no character with a
second nonempty pattern cannot create an occurrence of that second pattern. -/
theorem replacePreserve (pat1 pat2 rep : List Char) (hp1 : pat1 ≠ []) (hrep : rep ≠ [])
    (hdisj : ∀ c ∈ rep, c ∉ pat1) :
    ∀ fuel s, s.length ≤ fuel → ¬ pat1 <:+: s →
      ¬ pat1 <:+: replaceFuel pat2 rep fuel s := by
  intro fuel
  induction fuel with
  | zero =>
    intro s hlen hns h
    have hs : s = [] := List.length_eq_zero.mp (Nat.le_zero.mp hlen)
    subst hs
    simpa [replaceFuel] using hns h
  | succ n ih =>
    intro s hlen hns h
    cases s with
    | nil =>
      simpa [replaceFuel] using hns h
    | cons c rest =>
      simp only [replaceFuel] at h
      by_cases hm : pat2 ≠ [] ∧ pat2.isPrefixOf (c :: rest) = true
      · rw [if_pos hm] at h
        have h2 := infAppendRight pat1 rep _ hp1 hdisj h
        have hdrop : ¬ pat1 <:+: (c :: rest).drop pat2.length :=
          fun hx => hns (hx.trans (suffixToInf (List.drop_suffix _ _)))
        have hp2len : 1 ≤ pat2.length := by
          cases hp2 : pat2 with
          | nil => exact absurd hp2 hm.1
          | cons p ps => simp
        have hlen2 : ((c :: rest).drop pat2.length).length ≤ n := by
          rw [List.length_drop]
          simp only [List.length_cons] at hlen ⊢
          omega
        exact ih _ hlen2 hdrop h2
      · rw [if_neg hm] at h
        rcases List.infix_cons_iff.mp h with hpre | hinf
        · cases pat1 with
          | nil => exact hp1 rfl
          | cons p ps =>
            rcases List.cons_prefix_cons.mp hpre with ⟨hpc, hps⟩
            subst hpc
            have hq : ∀ x ∈ ps, x ∉ rep :=
              fun x hx hxr => hdisj x hxr (List.mem_cons_of_mem p hx)
            have hps2 : ps <+: rest :=
              prefixThroughReplace pat2 rep hrep n rest ps
                (Nat.le_of_succ_le_succ (by simpa using hlen)) hq hps
            exact hns (prefixToInf (List.cons_prefix_cons.mpr ⟨rfl, hps2⟩))
        · exact ih rest (Nat.le_of_succ_le_succ (by simpa using hlen))
            (fun hx => hns (List.infix_cons hx)) hinf

/- ---------------------------------------------------------------------------
Structural lemmas about the operation models.
--------------------------------------------------------------------------- -/

/-- The connection loop on an all-failing oracle: every attempt in the budget
is made, each followed by the 15-second sleep, and the loop fails. -/
theorem connectLoopFromAllFail (connectOk : Nat → Bool) :
    ∀ n i, (∀ j, j < n → connectOk (i + j) = false) →
      connectLoopFrom connectOk i n
        = (Except.error Err.unreachableHostError, retryTrace i n) := by
  intro n
  induction n with
  | zero => intro i _; rfl
  | succ m ih =>
    intro i h
    have h0 : connectOk i = false := by simpa using h 0 (Nat.succ_pos m)
    have hrest : ∀ j, j < m → connectOk (i + 1 + j) = false := by
      intro j hj
      have h2 := h (j + 1) (Nat.succ_lt_succ hj)
      have e : i + (j + 1) = i + 1 + j := by omega
      rwa [e] at h2
    simp only [connectLoopFrom, h0, Bool.false_eq_true, if_false, ih (i + 1) hrest,
      retryTrace]

/-- The connection loop stops at the first successful attempt. -/
theorem connectLoopFromFirstSuccess (connectOk : Nat → Bool) :
    ∀ k n i, k < n → connectOk (i + k) = true →
      (∀ j, j < k → connectOk (i + j) = false) →
      connectLoopFrom connectOk i n
        = (Except.ok (i + k), retryTrace i k ++ [Event.sshAttempt (i + k)]) := by
  intro k
  induction k with
  | zero =>
    intro n i hk hs _
    cases n with
    | zero => omega
    | succ m =>
      have hs0 : connectOk i = true := by simpa using hs
      simp [connectLoopFrom, hs0, retryTrace]
  | succ k2 ih =>
    intro n i hk hs hf
    cases n with
    | zero => omega
    | succ m =>
      have h0 : connectOk i = false := by simpa using hf 0 (Nat.succ_pos k2)
      have hs2 : connectOk (i + 1 + k2) = true := by
        have e : i + (k2 + 1) = i + 1 + k2 := by omega
        rwa [e] at hs
      have hf2 : ∀ j, j < k2 → connectOk (i + 1 + j) = false := by
        intro j hj
        have h2 := hf (j + 1) (Nat.succ_lt_succ hj)
        have e : i + (j + 1) = i + 1 + j := by omega
        rwa [e] at h2
      have e2 : i + 1 + k2 = i + (k2 + 1) := by omega
      simp only [connectLoopFrom, h0, Bool.false_eq_true, if_false,
        ih m (i + 1) (Nat.lt_of_succ_lt_succ hk) hs2 hf2, e2, retryTrace,
        List.cons_append]

/-- Attempt and sleep counts of a pure-failure trace. -/
theorem retryTraceCounts : ∀ n s, countAttempts (retryTrace s n) = n
    ∧ countSleeps (retryTrace s n) = n := by
  intro n
  induction n with
  | zero => intro s; exact ⟨rfl, rfl⟩
  | succ m ih =>
    intro s
    have := ih (s + 1)
    simp only [retryTrace, countAttempts, countSleeps, List.filter_cons] at this ⊢
    simp_all

/-- `destroy_resources` never modifies the filesystem model and always
returns (it has no error channel: every exception is caught inside). -/
theorem destroyWorldUnchanged (a : Bool) (ext : Oracles) (w : World) :
    (destroy_resources a ext w).1 = w := by
  unfold destroy_resources
  dsimp only
  repeat' split
  all_goals rfl

/-- Key generation never changes the directory set. -/
theorem genKeyDirs (wd : String) (k : KeyPair) (w : World) :
    ((_generate_ssh_key wd k w).2.1).dirs = w.dirs := by
  unfold _generate_ssh_key
  dsimp only
  split <;> rfl

/-- `ensureDir` makes the directory present. -/
theorem memEnsureDir (d : String) (w : World) : d ∈ (ensureDir d w).dirs := by
  unfold ensureDir
  split
  · assumption
  · exact List.mem_cons_self d w.dirs

/-- `removeTreeFS` removes the directory. -/
theorem removeTreeNotMem (d : String) (w : World) : d ∉ (removeTreeFS d w).dirs := by
  simp [removeTreeFS, List.mem_filter]

/-- `removeTreeFS` never adds directories. -/
theorem removeTreeSub (d x : String) (w : World)
    (h : x ∈ (removeTreeFS d w).dirs) : x ∈ w.dirs := by
  simp only [removeTreeFS, List.mem_filter] at h
  exact h.1

/-- Left-append of a common string preserves inequality of strings. -/
theorem strAppendNe (a : String) {b c : String} (h : b ≠ c) : a ++ b ≠ a ++ c := by
  intro he
  apply h
  have hd := congrArg String.data he
  simp only [String.data_append] at hd
  have h2 := List.append_cancel_left hd
  cases b
  cases c
  exact congrArg String.mk h2

/-- `ensureDir` never changes the file map. -/
theorem ensureDirFiles (d : String) (w : World) : (ensureDir d w).files = w.files := by
  unfold ensureDir
  split <;> rfl

/-- When every step up to the remote bootstrap succeeds and the remote script
exits with a non-zero status, `execute_deployment` raises the remote script
failure carrying that status and the captured stderr tail. -/
theorem execDeployRemoteFail
    (assets : Assets) (auto : Bool) (ext : Oracles) (w : World)
    (raw : String) (pid : String) (ip : String) (k : Nat)
    (h1 : extractTerraformContent assets.terraform_code = Except.ok raw)
    (h2 : ext.gcloudProject = some pid) (h3 : pid ≠ "")
    (h4 : List.lookup (WORKDIR_NAME ++ "/" ++ PRIVATE_KEY_FILENAME) w.files = none)
    (h5 : ext.tfInit.returncode = 0) (h6 : ext.tfApply.returncode = 0)
    (h7 : ext.tfOutput.returncode = 0)
    (h8 : List.lookup "nat_ip" ext.tfOutputsParsed = some ip)
    (h9 : (connectLoop ext.connectOk).1 = Except.ok k)
    (h10 : ext.remoteExitStatus ≠ 0) :
    (execute_deployment assets auto ext w).1
      = Except.error (Err.remoteScriptError ext.remoteExitStatus ext.remoteStderr) := by
  have e1 : ((WORKDIR_NAME ++ "/" ++ PRIVATE_KEY_FILENAME)
      == (WORKDIR_NAME ++ "/" ++ "deploy.sh")) = false :=
    beq_eq_false_iff_ne.mpr (strAppendNe _ (by decide))
  have e2 : ((WORKDIR_NAME ++ "/" ++ PRIVATE_KEY_FILENAME)
      == (WORKDIR_NAME ++ "/" ++ "main.tf")) = false :=
    beq_eq_false_iff_ne.mpr (strAppendNe _ (by decide))
  have hlk : ∀ s1 s2 : String,
      List.lookup (WORKDIR_NAME ++ "/" ++ PRIVATE_KEY_FILENAME)
        ((WORKDIR_NAME ++ "/" ++ "deploy.sh", s1)
          :: (WORKDIR_NAME ++ "/" ++ "main.tf", s2) :: w.files) = none := by
    intro s1 s2
    simp only [List.lookup, e1, e2, h4]
  unfold execute_deployment
  dsimp only
  rw [h1, h2]
  simp only [_get_gcp_project_id]
  rw [if_neg h3]
  simp only [_generate_ssh_key, fsWrite, ensureDirFiles]
  simp only [hlk, Option.isSome_none, Bool.false_eq_true, if_false]
  simp only [List.lookup, beq_self_eq_true]
  simp only [_run_command, h5, h6, h7, ne_eq, not_true_eq_false, if_false,
    reduceCtorEq, reduceIte]
  rw [h8]
  simp only [_run_remote_script]
  rcases hcl : connectLoop ext.connectOk with ⟨r, evs⟩
  rw [hcl] at h9
  simp only at h9
  subst h9
  simp only [if_pos h10]

/-- The workspace directory is present in the filesystem at every exit of
`execute_deployment`: no step removes it. -/
theorem workdirPersists (assets : Assets) (auto : Bool) (ext : Oracles) (w : World) :
    WORKDIR_NAME ∈ ((execute_deployment assets auto ext w).2.1).dirs := by
  unfold execute_deployment
  dsimp only
  repeat' split
  all_goals simp_all [genKeyDirs, memEnsureDir, fsWrite]

/-- Event counts distribute over concatenated traces. -/
theorem countAttemptsAppend (a b : List Event) :
    countAttempts (a ++ b) = countAttempts a + countAttempts b := by
  simp [countAttempts, List.filter_append]

/-- The temporary code directory of `main` is absent from the filesystem at
every exit of `mainRun`: the deploy path removes it in the `finally` block,
and the other paths never create it. -/
theorem tempDirRemoved (args : CliArgs) (td : String) (stages : Except String Assets)
    (ext : Oracles) (w : World) (h : td ∉ w.dirs) :
    td ∉ ((mainRun args td stages ext w).2.1).dirs := by
  unfold mainRun
  dsimp only
  repeat' split
  all_goals first
    | (rw [destroyWorldUnchanged]; exact h)
    | exact h
    | exact removeTreeNotMem _ _

/- ---------------------------------------------------------------------------
Claim theorems.
--------------------------------------------------------------------------- -/

/-- C1, counterexample.  A deploy run in which the remote bootstrap script
exits with status 1 does raise the remote-script failure, yet the workspace
directory `deploy_workdir` — the directory holding the declaration, script
and key pair — still exists at exit: the orchestrator removes it on no exit
path, so the claim that the workspace directory is removed on every exit is
false on this concrete run. -/
theorem c1_counterexample :
    (execute_deployment assetsPort5000 true extRemoteFail emptyWorld).1
        = Except.error (Err.remoteScriptError 1 "bootstrap failed")
    ∧ WORKDIR_NAME ∈ ((execute_deployment assetsPort5000 true extRemoteFail emptyWorld).2.1).dirs :=
  ⟨by decide, by decide⟩

/-- C1, amended.  When the remote bootstrap script exits with a non-zero
status (all earlier steps succeeding), `execute_deployment` raises
`RemoteScriptError` carrying that status; the temporary code directory
created by `main` is removed on every exit path of every run; but the fixed
workspace directory `deploy_workdir` is present at every exit of
`execute_deployment` — the orchestrator never removes it. -/
theorem c1_amended_cleanup :
    (∀ (assets : Assets) (auto : Bool) (ext : Oracles) (w : World)
       (raw pid ip : String) (k : Nat),
       extractTerraformContent assets.terraform_code = Except.ok raw →
       ext.gcloudProject = some pid → pid ≠ "" →
       List.lookup (WORKDIR_NAME ++ "/" ++ PRIVATE_KEY_FILENAME) w.files = none →
       ext.tfInit.returncode = 0 → ext.tfApply.returncode = 0 →
       ext.tfOutput.returncode = 0 →
       List.lookup "nat_ip" ext.tfOutputsParsed = some ip →
       (connectLoop ext.connectOk).1 = Except.ok k →
       ext.remoteExitStatus ≠ 0 →
       (execute_deployment assets auto ext w).1
         = Except.error (Err.remoteScriptError ext.remoteExitStatus ext.remoteStderr))
  ∧ (∀ (args : CliArgs) (td : String) (stages : Except String Assets)
       (ext : Oracles) (w : World), td ∉ w.dirs →
       td ∉ ((mainRun args td stages ext w).2.1).dirs)
  ∧ (∀ (assets : Assets) (auto : Bool) (ext : Oracles) (w : World),
       WORKDIR_NAME ∈ ((execute_deployment assets auto ext w).2.1).dirs) :=
  ⟨fun assets auto ext w raw pid ip k h1 h2 h3 h4 h5 h6 h7 h8 h9 h10 =>
     execDeployRemoteFail assets auto ext w raw pid ip k h1 h2 h3 h4 h5 h6 h7 h8 h9 h10,
   tempDirRemoved, workdirPersists⟩

/-- C1, witness: the amended theorem instantiated on a concrete failing
bootstrap run. -/
theorem c1_amended_cleanup_witness :
    extRemoteFail.remoteExitStatus ≠ 0
    ∧ (execute_deployment assetsNoAnalysis false extRemoteFail emptyWorld).1
        = Except.error (Err.remoteScriptError extRemoteFail.remoteExitStatus extRemoteFail.remoteStderr)
    ∧ "/tmp/code" ∉ ((mainRun argsDeploy "/tmp/code" (Except.ok assetsNoAnalysis) extRemoteFail emptyWorld).2.1).dirs
    ∧ WORKDIR_NAME ∈ ((execute_deployment assetsNoAnalysis false extRemoteFail emptyWorld).2.1).dirs := by
  refine ⟨by decide, ?_, ?_, ?_⟩
  · exact c1_amended_cleanup.1 assetsNoAnalysis false extRemoteFail emptyWorld
      "resource app" "demo-project" "203.0.113.5" 0 rfl rfl (by decide) rfl rfl rfl rfl rfl
      (by decide) (by decide)
  · exact c1_amended_cleanup.2.1 argsDeploy "/tmp/code" (Except.ok assetsNoAnalysis)
      extRemoteFail emptyWorld (by simp [emptyWorld])
  · exact c1_amended_cleanup.2.2 assetsNoAnalysis false extRemoteFail emptyWorld

/-- C2.  In deploy mode (destroy flag off, prompt and repo supplied) with the
three LLM stages succeeding, the stage-4 call passes three positional
arguments to the two-parameter `execute_deployment`, so the run ends with
exit code 1 after reporting a `TypeError` at the call site; the trace
contains exactly that report and the temporary-directory cleanup — no
workspace file write and no engine command — and the file map is touched
only by the temporary-directory removal. -/
theorem c2_arity_error (args : CliArgs) (td : String) (assets : Assets)
    (ext : Oracles) (w : World)
    (hd : args.destroy = false) (hp : args.prompt.isSome = true)
    (hr : args.repo.isSome = true) :
    mainRun args td (Except.ok assets) ext w
      = (1, removeTreeFS td (World.mk (td :: w.dirs) w.files),
         [Event.reportError Err.typeError, Event.removeTree td])
    ∧ main_deploy_call_args.length = 3
    ∧ execute_deployment_param_names.length = 2 := by
  refine ⟨?_, rfl, rfl⟩
  obtain ⟨pv, hpv⟩ := Option.isSome_iff_exists.mp hp
  obtain ⟨rv, hrv⟩ := Option.isSome_iff_exists.mp hr
  simp [mainRun, hd, hpv, hrv, main_deploy_call_args, execute_deployment_param_names]

/-- C2, witness: a concrete deploy-mode run ends in the arity `TypeError`
with no deployment side effect. -/
theorem c2_arity_error_witness :
    argsDeploy.destroy = false ∧ argsDeploy.prompt.isSome = true
    ∧ argsDeploy.repo.isSome = true
    ∧ mainRun argsDeploy "/tmp/code" (Except.ok assetsNoAnalysis) extOkRun emptyWorld
      = (1, removeTreeFS "/tmp/code" (World.mk ["/tmp/code"] []),
         [Event.reportError Err.typeError, Event.removeTree "/tmp/code"]) := by
  refine ⟨rfl, rfl, rfl, ?_⟩
  exact (c2_arity_error argsDeploy "/tmp/code" assetsNoAnalysis extOkRun emptyWorld rfl rfl rfl).1

/-- C3.  On a run whose engine output query yields
`nat_ip = 203.0.113.5` and whose analysis exposes port 5000, deploy reports
the endpoint `http://203.0.113.5:5000`; and whenever `exposed_port` is
absent from the analysis (or the analysis itself is absent), the port
defaults to 80. -/
theorem c3_endpoint :
    ((execute_deployment assetsPort5000 true extOkRun emptyWorld).1
        = Except.ok "http://203.0.113.5:5000"
     ∧ Event.reportEndpoint "http://203.0.113.5:5000"
        ∈ (execute_deployment assetsPort5000 true extOkRun emptyWorld).2.2)
  ∧ (∀ a : Assets, a.analysis = none → resolvePort a = 80)
  ∧ (∀ a al, a.analysis = some al → al.lookup "exposed_port" = none → resolvePort a = 80) := by
  refine ⟨⟨by decide, by decide⟩, ?_, ?_⟩
  · intro a h
    simp [resolvePort, h]
  · intro a al h1 h2
    simp [resolvePort, h1, h2]

/-- C3, witness: the default-port conjunct applied to concrete assets with no
analysis. -/
theorem c3_endpoint_witness :
    assetsNoAnalysis.analysis = none ∧ resolvePort assetsNoAnalysis = 80 :=
  ⟨rfl, c3_endpoint.2.1 assetsNoAnalysis rfl⟩

/-- C4.  The connection loop retries up to exactly 10 attempts: if all 10
fail, every attempt is made, each followed by the fixed 15-second sleep, and
only then is the unreachable-host failure raised; the first successful
attempt short-circuits all further retries (exactly `k + 1` attempts when
attempt `k` is the first success); and whenever any attempt within the bound
succeeds, the loop does not raise. -/
theorem c4_bounded_retry (connectOk : Nat → Bool) :
    ((∀ i, i < 10 → connectOk i = false) →
       connectLoop connectOk = (Except.error Err.unreachableHostError, retryTrace 0 10)
       ∧ countAttempts (retryTrace 0 10) = 10 ∧ countSleeps (retryTrace 0 10) = 10)
  ∧ (∀ k, k < 10 → connectOk k = true → (∀ j, j < k → connectOk j = false) →
       connectLoop connectOk = (Except.ok k, retryTrace 0 k ++ [Event.sshAttempt k])
       ∧ countAttempts (retryTrace 0 k ++ [Event.sshAttempt k]) = k + 1)
  ∧ (∀ k, k < 10 → connectOk k = true →
       (connectLoop connectOk).1 ≠ Except.error Err.unreachableHostError) := by
  refine ⟨?_, ?_, ?_⟩
  · intro h
    refine ⟨?_, (retryTraceCounts 10 0).1, (retryTraceCounts 10 0).2⟩
    have hall := connectLoopFromAllFail connectOk 10 0 (by intro j hj; simpa using h j hj)
    simpa [connectLoop] using hall
  · intro k hk hs hf
    constructor
    · have hfs := connectLoopFromFirstSuccess connectOk k 10 0 hk (by simpa using hs)
        (by intro j hj; simpa using hf j hj)
      simpa [connectLoop] using hfs
    · rw [countAttemptsAppend, (retryTraceCounts k 0).1]
      simp [countAttempts]
  · intro k hk hs
    have hex : ∃ i, connectOk i = true := ⟨k, hs⟩
    have hspec := Nat.find_spec hex
    have hle : Nat.find hex ≤ k := Nat.find_min' hex hs
    have hfirst : ∀ j, j < Nat.find hex → connectOk j = false := by
      intro j hj
      have hmin := Nat.find_min hex hj
      simpa using hmin
    have heq := connectLoopFromFirstSuccess connectOk (Nat.find hex) 10 0
      (Nat.lt_of_le_of_lt hle hk) (by simpa using hspec)
      (by intro j hj; simpa using hfirst j hj)
    rw [show connectLoop connectOk = connectLoopFrom connectOk 0 10 from rfl, heq]
    simp

/-- C4, witness: a host that accepts the third attempt short-circuits the
loop after exactly three attempts. -/
theorem c4_bounded_retry_witness :
    ((fun i => decide (i = 2)) : Nat → Bool) 2 = true
    ∧ connectLoop (fun i => decide (i = 2))
        = (Except.ok 2, retryTrace 0 2 ++ [Event.sshAttempt 2]) := by
  refine ⟨by decide, ?_⟩
  exact ((c4_bounded_retry (fun i => decide (i = 2))).2.1 2 (by decide) (by decide)
    (by decide)).1

/-- C5.  `_run_command` returns all captured output when the spawned command
exits with status 0, and raises `CommandError` carrying the exact non-zero
exit status otherwise. -/
theorem c5_run_command (command : List String) (wd : String) (stream : Bool) (p : ProcResult) :
    (p.returncode = 0 →
       _run_command command wd stream p
         = (Except.ok (String.join p.outLines), [Event.runCmd command wd]))
  ∧ (p.returncode ≠ 0 →
       _run_command command wd stream p
         = (Except.error (Err.commandError p.returncode), [Event.runCmd command wd])) := by
  constructor
  · intro h
    simp [_run_command, h]
  · intro h
    simp [_run_command, h]

/-- C5, witness: a zero-status run returns its output; an exit-3 run raises
`CommandError 3`. -/
theorem c5_run_command_witness :
    (ProcResult.mk ["line1", "line2"] "" 0).returncode = 0
    ∧ _run_command ["terraform", "init"] "deploy_workdir" true (ProcResult.mk ["line1", "line2"] "" 0)
        = (Except.ok (String.join ["line1", "line2"]),
           [Event.runCmd ["terraform", "init"] "deploy_workdir"])
    ∧ (ProcResult.mk [] "boom" 3).returncode ≠ 0
    ∧ _run_command ["terraform", "apply"] "deploy_workdir" true (ProcResult.mk [] "boom" 3)
        = (Except.error (Err.commandError 3),
           [Event.runCmd ["terraform", "apply"] "deploy_workdir"]) :=
  ⟨rfl,
   (c5_run_command ["terraform", "init"] "deploy_workdir" true
      (ProcResult.mk ["line1", "line2"] "" 0)).1 rfl,
   by decide,
   (c5_run_command ["terraform", "apply"] "deploy_workdir" true
      (ProcResult.mk [] "boom" 3)).2 (by decide)⟩

/-- C6.  Once the connection is established, the remote bootstrap outcome is
determined solely by the remote exit status: success exactly when it is
zero; a non-zero status raises `RemoteScriptError` carrying that status and
the captured stderr tail; and the success of the run is independent of the
streamed stdout lines and of the stderr content. -/
theorem c6_exit_status (host user pk sp : String) (connectOk : Nat → Bool)
    (lines lines2 : List String) (st : Int) (sd sd2 : String)
    (k : Nat) (hconn : (connectLoop connectOk).1 = Except.ok k) :
    ((_run_remote_script host user pk sp connectOk lines st sd).1 = Except.ok () ↔ st = 0)
  ∧ (st ≠ 0 → (_run_remote_script host user pk sp connectOk lines st sd).1
       = Except.error (Err.remoteScriptError st sd))
  ∧ ((_run_remote_script host user pk sp connectOk lines st sd).1 = Except.ok ()
       ↔ (_run_remote_script host user pk sp connectOk lines2 st sd2).1 = Except.ok ()) := by
  rcases hcl : connectLoop connectOk with ⟨r, evs⟩
  rw [hcl] at hconn
  simp only at hconn
  subst hconn
  unfold _run_remote_script
  rw [hcl]
  dsimp only
  by_cases hst : st = 0
  · simp [hst]
  · simp [hst]

/-- C6, witness: with a reachable host, remote exit status 2 produces exactly
`RemoteScriptError 2` with the captured stderr tail. -/
theorem c6_exit_status_witness :
    (connectLoop extOkRun.connectOk).1 = Except.ok 0
    ∧ (2 : Int) ≠ 0
    ∧ (_run_remote_script "203.0.113.5" "gcp-user" "k" "deploy_workdir/deploy.sh"
         extOkRun.connectOk ["out"] 2 "remote boom").1
        = Except.error (Err.remoteScriptError 2 "remote boom") :=
  ⟨by decide, by decide,
   (c6_exit_status "203.0.113.5" "gcp-user" "k" "deploy_workdir/deploy.sh" extOkRun.connectOk
      ["out"] [] 2 "remote boom" "" 0 (by decide)).2.1 (by decide)⟩

/-- C7.  Invoking `destroy_resources` when the workspace directory was never
created returns normally with the filesystem unchanged, reports
nothing-to-do, and invokes no external command. -/
theorem c7_destroy_noop (auto : Bool) (ext : Oracles) (w : World)
    (h : WORKDIR_NAME ∉ w.dirs) :
    destroy_resources auto ext w
        = (w, [Event.message "Working directory not found. Nothing to destroy."])
    ∧ ∀ c d, Event.runCmd c d ∉ (destroy_resources auto ext w).2 := by
  have hmain : destroy_resources auto ext w
      = (w, [Event.message "Working directory not found. Nothing to destroy."]) := by
    unfold destroy_resources
    dsimp only
    rw [if_neg h]
  refine ⟨hmain, ?_⟩
  intro c d
  rw [hmain]
  simp

/-- C7, witness: destroy against an empty filesystem is a reported no-op. -/
theorem c7_destroy_noop_witness :
    WORKDIR_NAME ∉ emptyWorld.dirs
    ∧ destroy_resources true extOkRun emptyWorld
        = (emptyWorld, [Event.message "Working directory not found. Nothing to destroy."]) :=
  ⟨by decide, (c7_destroy_noop true extOkRun emptyWorld (by decide)).1⟩

/-- C8.  Key-pair generation is idempotent: a second invocation against the
workspace produced by a first invocation returns the same path pair, leaves
the filesystem — in particular the private key file contents — unchanged
byte for byte, and generates no new key material (its event trace is
empty). -/
theorem c8_keypair_idempotent (wd : String) (k1 k2 : KeyPair) (w : World) :
    _generate_ssh_key wd k2 (_generate_ssh_key wd k1 w).2.1
      = ((_generate_ssh_key wd k1 w).1, (_generate_ssh_key wd k1 w).2.1,
         ([] : List Event)) := by
  have epub : ((wd ++ "/" ++ PRIVATE_KEY_FILENAME)
      == (wd ++ "/" ++ PUBLIC_KEY_FILENAME)) = false :=
    beq_eq_false_iff_ne.mpr (strAppendNe _ (by decide))
  unfold _generate_ssh_key
  dsimp only
  by_cases h : (List.lookup (wd ++ "/" ++ PRIVATE_KEY_FILENAME) w.files).isSome = true
  · simp [h]
  · simp [h, fsWrite, List.lookup, epub, beq_self_eq_true]

/-- C9, counterexample.  With the account identifier `GCP_PROJECT_IDx` and
the declaration `YOUR_YOUR_GOOGLE_PROJECT_ID`, the substitution of the
second placeholder splices the identifier between fragments of the text and
produces `YOUR_GCP_PROJECT_IDx`, in which the first placeholder occurs — so
a placeholder token does remain in the text written to disk. -/
theorem c9_counterexample :
    containsSub "YOUR_GCP_PROJECT_ID".data
      (substitutePlaceholders "GCP_PROJECT_IDx" "YOUR_YOUR_GOOGLE_PROJECT_ID").data = true := by
  decide

/-- C9, amended.  For every declaration text, provided the account identifier
is non-empty and shares no character with the placeholder tokens (true of
well-formed GCP project ids, which are lowercase), no placeholder token
remains anywhere in the substituted text. -/
theorem c9_amended_substitution (text pid : String)
    (hne : pid.data ≠ [])
    (hclean : ∀ c ∈ pid.data,
      c ∉ "YOUR_GCP_PROJECT_ID".data ∧ c ∉ "YOUR_GOOGLE_PROJECT_ID".data) :
    containsSub "YOUR_GCP_PROJECT_ID".data (substitutePlaceholders pid text).data = false
    ∧ containsSub "YOUR_GOOGLE_PROJECT_ID".data (substitutePlaceholders pid text).data = false := by
  have hd1 : ∀ c ∈ pid.data, c ∉ "YOUR_GCP_PROJECT_ID".data := fun c hc => (hclean c hc).1
  have hd2 : ∀ c ∈ pid.data, c ∉ "YOUR_GOOGLE_PROJECT_ID".data := fun c hc => (hclean c hc).2
  have ph1ne : "YOUR_GCP_PROJECT_ID".data ≠ [] := by decide
  have ph2ne : "YOUR_GOOGLE_PROJECT_ID".data ≠ [] := by decide
  have hA1 : ¬ "YOUR_GCP_PROJECT_ID".data <:+:
      listReplace text.data "YOUR_GCP_PROJECT_ID".data pid.data :=
    replaceNoOccur _ _ ph1ne hne hd1 text.data.length text.data (Nat.le_refl _)
  have hA2 : ¬ "YOUR_GOOGLE_PROJECT_ID".data <:+:
      listReplace (listReplace text.data "YOUR_GCP_PROJECT_ID".data pid.data)
        "YOUR_GOOGLE_PROJECT_ID".data pid.data :=
    replaceNoOccur _ _ ph2ne hne hd2 _ _ (Nat.le_refl _)
  have hB : ¬ "YOUR_GCP_PROJECT_ID".data <:+:
      listReplace (listReplace text.data "YOUR_GCP_PROJECT_ID".data pid.data)
        "YOUR_GOOGLE_PROJECT_ID".data pid.data :=
    replacePreserve _ _ _ ph1ne hne hd1 _ _ (Nat.le_refl _) hA1
  have hsub : (substitutePlaceholders pid text).data
      = listReplace (listReplace text.data "YOUR_GCP_PROJECT_ID".data pid.data)
          "YOUR_GOOGLE_PROJECT_ID".data pid.data := rfl
  constructor
  · rw [hsub]
    exact Bool.eq_false_iff.mpr (fun hx => hB ((containsSubTrue _ _).mp hx))
  · rw [hsub]
    exact Bool.eq_false_iff.mpr (fun hx => hA2 ((containsSubTrue _ _).mp hx))

/-- C9, witness: the amended theorem on a concrete declaration and the
well-formed account identifier `proj-1`. -/
theorem c9_amended_substitution_witness :
    "proj-1".data ≠ []
    ∧ containsSub "YOUR_GCP_PROJECT_ID".data
        (substitutePlaceholders "proj-1" "srv YOUR_GCP_PROJECT_ID port").data = false
    ∧ containsSub "YOUR_GOOGLE_PROJECT_ID".data
        (substitutePlaceholders "proj-1" "srv YOUR_GCP_PROJECT_ID port").data = false :=
  ⟨by decide,
   (c9_amended_substitution "srv YOUR_GCP_PROJECT_ID port" "proj-1" (by decide) (by decide)).1,
   (c9_amended_substitution "srv YOUR_GCP_PROJECT_ID port" "proj-1" (by decide) (by decide)).2⟩

/-- C10.  A keyed declaration payload with one named member is deployed
exactly as the corresponding plain text blob — the whole run (result,
filesystem, trace) is identical — and in general the deployer selects the
first member of a keyed payload by iteration order as the sole
declaration. -/
theorem c10_keyed_payload (t script : String) (analysis : Option (List (String × Nat)))
    (auto : Bool) (ext : Oracles) (w : World) :
    execute_deployment (Assets.mk (TfPayload.keyed [("main", t)]) script analysis) auto ext w
      = execute_deployment (Assets.mk (TfPayload.text t) script analysis) auto ext w
  ∧ (∀ (k v : String) (rest : List (String × String)),
       extractTerraformContent (TfPayload.keyed ((k, v) :: rest)) = Except.ok v) :=
  ⟨rfl, fun _ _ _ => rfl⟩
